import Mathlib

/-!
Shallow embedding of the client-side real-time reconciliation logic of the
realtime task manager front end: the in-memory task, comment and project
collections, their REST pagination handlers, the broadcast event handlers,
the local-origin suppression marks, the fetch wrapper and the socket module.
Each definition is translated from the corresponding source function.
-/

namespace RTM

/-- A task entity as held by the project detail page (fields relevant to the
collection logic; `_id` is the stable unique identifier). -/
structure Task where
  _id : String
  title : String
  description : String
  status : String
  deriving Repr, DecidableEq

/-- A comment entity as held by the task detail sheet. -/
structure Comment where
  _id : String
  content : String
  task : String
  deriving Repr, DecidableEq

/-- Number of occurrences of the identifier `i` in a task collection. -/
def countTaskId : List Task → String → Nat
  | [], _ => 0
  | t :: ts, i => (if t._id == i then 1 else 0) + countTaskId ts i

/-- Number of occurrences of the identifier `i` in a comment collection. -/
def countCommentId : List Comment → String → Nat
  | [], _ => 0
  | c :: cs, i => (if c._id == i then 1 else 0) + countCommentId cs i

/-- Broadcast task-create handler of the project detail page
(`useTaskUpdates onTaskCreated`): suppress when the id carries a local-origin
mark, suppress when the id is already present, otherwise insert at the head. -/
def onTaskCreated (locallyCreatedTaskIds : List String) (tasks : List Task)
    (task : Task) : List Task :=
  if locallyCreatedTaskIds.contains task._id then tasks
  else if tasks.any (fun t => t._id == task._id) then tasks
  else task :: tasks

/-- Broadcast comment-create handler of the task detail sheet
(`useCommentUpdates onCommentCreated`): appends unconditionally, with no
origin check and no duplicate-id check. -/
def onCommentCreated (comments : List Comment) (comment : Comment) :
    List Comment :=
  comments ++ [comment]

/-- REST page append of the task list (`loadTasks` with a cursor):
concatenates the response page to the tail, with no deduplication. -/
def appendTasksPage (tasks page : List Task) : List Task :=
  tasks ++ page

/-- One step of the task collection under a broadcast create event: the event
carries the set of local-origin marks active at delivery time and the created
entity. -/
def applyTaskCreateEvent (tasks : List Task) (e : List String × Task) :
    List Task :=
  onTaskCreated e.1 tasks e.2

/-- Folding a sequence of broadcast create events over the task collection. -/
def applyTaskCreateEvents (tasks : List Task) (es : List (List String × Task)) :
    List Task :=
  es.foldl applyTaskCreateEvent tasks

theorem countTaskId_cons (t : Task) (ts : List Task) (i : String) :
    countTaskId (t :: ts) i = (if t._id == i then 1 else 0) + countTaskId ts i :=
  rfl

theorem countTaskId_eq_zero_of_not_any {ts : List Task} {i : String}
    (h : ts.any (fun t => t._id == i) = false) : countTaskId ts i = 0 := by
  induction ts with
  | nil => rfl
  | cons t ts ih =>
    simp only [List.any_cons, Bool.or_eq_false_iff] at h
    rw [countTaskId_cons, ih h.2, h.1]
    rfl

theorem onTaskCreated_count_le_one (marks : List String) (ts : List Task)
    (task : Task) (h : ∀ i, countTaskId ts i ≤ 1) :
    ∀ i, countTaskId (onTaskCreated marks ts task) i ≤ 1 := by
  intro i
  unfold onTaskCreated
  split
  · exact h i
  · split
    · exact h i
    · rename_i hpresent
      rw [countTaskId_cons]
      by_cases hid : task._id = i
      · subst hid
        rw [countTaskId_eq_zero_of_not_any
          (by simpa using hpresent)]
        simp
      · have hbeq : (task._id == i) = false := by
          simpa using hid
        rw [hbeq]
        simpa using h i

/-- C1 (counterexample): the claim asserts the no-duplicate invariant for
every sequence of REST page loads and broadcast creates, for both the task
and the comment collection; yet (i) the comment handler `onCommentCreated`
appends unconditionally, so a duplicate broadcast delivery applied to the
initially empty (hence duplicate-free) collection yields that comment id
twice, and (ii) the task REST page append does not deduplicate either, so a
broadcast create followed by a page load whose page carries the same entity
yields that task id twice. -/
theorem C1_counterexample :
    countCommentId
      (onCommentCreated (onCommentCreated [] ⟨"c1", "hello", "t1"⟩)
        ⟨"c1", "hello", "t1"⟩) "c1" = 2
    ∧ countTaskId
      (appendTasksPage (onTaskCreated [] [] ⟨"X", "x", "", "OPEN"⟩)
        [⟨"X", "x", "", "OPEN"⟩]) "X" = 2 := by
  exact ⟨rfl, rfl⟩

/-- C1 (amended): for the task collection the invariant holds:
`onTaskCreated` suppresses a broadcast create whose id is already present,
any sequence of broadcast create events applied to a duplicate-free task
collection leaves every id occurring at most once, and an unsuppressed
create inserts the entity at the head. The comment collection handler,
however, appends unconditionally (see the counterexample), and REST page
appends do not deduplicate. -/
theorem C1_amended :
    (∀ (marks : List String) (tasks : List Task) (task : Task),
        tasks.any (fun t => t._id == task._id) = true →
        onTaskCreated marks tasks task = tasks)
    ∧ (∀ (events : List (List String × Task)) (tasks : List Task),
        (∀ i, countTaskId tasks i ≤ 1) →
        ∀ i, countTaskId (applyTaskCreateEvents tasks events) i ≤ 1)
    ∧ (∀ (tasks : List Task) (task : Task),
        tasks.any (fun t => t._id == task._id) = false →
        onTaskCreated [] tasks task = task :: tasks) := by
  refine ⟨?_, ?_, ?_⟩
  · intro marks tasks task h
    unfold onTaskCreated
    split
    · rfl
    · simp [h]
  · intro events
    induction events with
    | nil => intro tasks h i; exact h i
    | cons e es ih =>
      intro tasks h i
      exact ih _ (onTaskCreated_count_le_one e.1 tasks e.2 h) i
  · intro tasks task h
    simp [onTaskCreated, h]

/-- C1 witness: the amended theorem applied at concrete inputs: a duplicate
create of id t1 is suppressed, a two-event sequence with the same id leaves
at most one copy, and a fresh create inserts at the head. -/
theorem C1_witness :
    (onTaskCreated [] [⟨"t1", "a", "x", "OPEN"⟩] ⟨"t1", "b", "y", "OPEN"⟩
       = [⟨"t1", "a", "x", "OPEN"⟩])
    ∧ countTaskId
        (applyTaskCreateEvents []
          [([], ⟨"t1", "a", "x", "OPEN"⟩), ([], ⟨"t1", "b", "y", "OPEN"⟩)])
        "t1" ≤ 1
    ∧ onTaskCreated [] [] ⟨"t2", "c", "z", "OPEN"⟩
       = [⟨"t2", "c", "z", "OPEN"⟩] :=
  ⟨C1_amended.1 [] _ _ (by rfl),
   C1_amended.2.1 _ [] (fun _ => by simp [countTaskId]) "t1",
   C1_amended.2.2 [] _ (by rfl)⟩

/-- State of the project detail page that the task handlers touch: the task
collection, the local-origin marks (`locallyCreatedTaskIds`, each paired with
the absolute time at which its 5-second removal timer fires), the selected
task of the detail sheet and the sheet visibility flag. -/
structure TaskPageState where
  tasks : List Task
  locallyCreatedTaskIds : List (String × Nat)
  selectedTask : Option Task
  isSheetOpen : Bool
  deriving Repr, DecidableEq

/-- Ids whose origin mark is still present at time `now`: a mark placed at
time t is removed by its timer at t + 5000, so it is present while
`now < expiry`. -/
def activeMarkIds (marks : List (String × Nat)) (now : Nat) : List String :=
  (marks.filter (fun m => now < m.2)).map (fun m => m.1)

/-- Local create callback `handleTaskCreated` (invoked when this client
creates a task): records the origin mark with a 5000 ms removal timer and
inserts the new task at the head of the collection. -/
def handleTaskCreated (st : TaskPageState) (task : Task) (now : Nat) :
    TaskPageState :=
  { st with
    locallyCreatedTaskIds := (task._id, now + 5000) :: st.locallyCreatedTaskIds,
    tasks := task :: st.tasks }

/-- Broadcast `task:created` event applied to the page state at time `now`:
the list handler `onTaskCreated` consulted with the marks active at delivery
time. -/
def onTaskCreatedEvent (st : TaskPageState) (task : Task) (now : Nat) :
    TaskPageState :=
  { st with
    tasks := onTaskCreated (activeMarkIds st.locallyCreatedTaskIds now)
      st.tasks task }

/-- Broadcast `task:updated` handler `handleTaskUpdated`: replace-in-place by
id in the collection, and refresh the selected task when it is the one
updated. -/
def onTaskUpdatedEvent (st : TaskPageState) (u : Task) : TaskPageState :=
  { st with
    tasks := st.tasks.map (fun t => if t._id == u._id then u else t),
    selectedTask :=
      st.selectedTask.map (fun c => if c._id == u._id then u else c) }

/-- Broadcast `task:deleted` handler: remove by id; when the deleted task is
the currently selected one, close the detail sheet and clear the selection. -/
def onTaskDeletedEvent (st : TaskPageState) (taskId : String) : TaskPageState :=
  let ts := st.tasks.filter (fun t => !(t._id == taskId))
  if (match st.selectedTask with
      | some c => c._id == taskId
      | none => false) then
    { st with tasks := ts, isSheetOpen := false, selectedTask := none }
  else
    { st with tasks := ts }

/-- C2: origin-mark suppression window. Starting from a page state with no
outstanding marks, a local create of `d` at time `t` marks the id until
`t + 5000`; (i) the echoed broadcast create for the same id delivered at any
time before `t + 5000` is suppressed, leaving the state unchanged; (ii) from
`t + 5000` on the mark is gone (the code has no consumption path that removes
it earlier, so the 5-second timer is the sole expiry); (iii) a later
independent broadcast event for the entity - an update, since the id now
exists - is applied: the snapshot at the head of the collection becomes the
updated one. -/
theorem C2_suppression_window (st : TaskPageState) (d : Task)
    (t tEcho tLate : Nat) (hno : st.locallyCreatedTaskIds = []) :
    (tEcho < t + 5000 →
      onTaskCreatedEvent (handleTaskCreated st d t) d tEcho
        = handleTaskCreated st d t)
    ∧ (t + 5000 ≤ tLate →
      activeMarkIds (handleTaskCreated st d t).locallyCreatedTaskIds tLate
        = [])
    ∧ (∀ u : Task, u._id = d._id →
      ((onTaskUpdatedEvent (handleTaskCreated st d t) u).tasks).head?
        = some u) := by
  refine ⟨?_, ?_, ?_⟩
  · intro hEcho
    unfold onTaskCreatedEvent handleTaskCreated
    simp [onTaskCreated, activeMarkIds, hEcho, hno]
  · intro hLate
    unfold handleTaskCreated
    simp only [hno]
    unfold activeMarkIds
    simp [Nat.not_lt_of_ge hLate]
  · intro u hu
    unfold onTaskUpdatedEvent handleTaskCreated
    simp [hu]

/-- C2 witness: the suppression-window theorem at a concrete run: local
create of task d at time 0, echoed broadcast at 1000 suppressed, mark gone at
6000, and an independent update applied afterwards. -/
theorem C2_witness :
    (onTaskCreatedEvent
        (handleTaskCreated ⟨[], [], none, false⟩ ⟨"d", "new", "", "OPEN"⟩ 0)
        ⟨"d", "new", "", "OPEN"⟩ 1000
      = handleTaskCreated ⟨[], [], none, false⟩ ⟨"d", "new", "", "OPEN"⟩ 0)
    ∧ activeMarkIds
        (handleTaskCreated ⟨[], [], none, false⟩
          ⟨"d", "new", "", "OPEN"⟩ 0).locallyCreatedTaskIds 6000 = []
    ∧ ((onTaskUpdatedEvent
        (handleTaskCreated ⟨[], [], none, false⟩ ⟨"d", "new", "", "OPEN"⟩ 0)
        ⟨"d", "new", "", "CLOSED"⟩).tasks).head?
      = some ⟨"d", "new", "", "CLOSED"⟩ := by
  have h := C2_suppression_window ⟨[], [], none, false⟩
    ⟨"d", "new", "", "OPEN"⟩ 0 1000 6000 rfl
  exact ⟨h.1 (by decide), h.2.1 (by decide), h.2.2 _ rfl⟩

/-- Shape of the task list endpoint response consumed by `loadTasks`. -/
structure TasksResponse where
  success : Bool
  tasks : List Task
  hasMore : Bool
  nextCursor : Option String
  deriving Repr, DecidableEq

/-- Pagination state of the task list, with the multiset of in-flight
`loadTasks` requests (each recorded by the cursor it was issued with) made
explicit to model interleaving of asynchronous completions. -/
structure TaskPaging where
  tasks : List Task
  cursor : Option String
  hasMore : Bool
  pendingLoads : List (Option String)
  deriving Repr, DecidableEq

/-- Clicking the task list Load More button: the button is rendered only
while `hasMore` holds and is never disabled, and its handler calls
`loadTasks(cursor)` unconditionally, issuing a request for the current
cursor. -/
def clickLoadMore (st : TaskPaging) : TaskPaging :=
  if st.hasMore then
    { st with pendingLoads := st.pendingLoads ++ [st.cursor] }
  else st

/-- Completion of a `loadTasks(nextCursor)` request: on success, append when
a cursor was sent, replace when not, and take `hasMore` and the next cursor
from the response pagination fields. -/
def resolveLoadTasks (st : TaskPaging) (nextCursor : Option String)
    (resp : TasksResponse) : TaskPaging :=
  let st1 := { st with pendingLoads := st.pendingLoads.erase nextCursor }
  if resp.success then
    { st1 with
      tasks := match nextCursor with
        | some _ => st.tasks ++ resp.tasks
        | none => resp.tasks,
      hasMore := resp.hasMore,
      cursor := resp.nextCursor }
  else st1

/-- A project entity as held by the projects list page. -/
structure Project where
  _id : String
  name : String
  status : String
  deriving Repr, DecidableEq

/-- Shape of the projects list endpoint response. -/
structure ProjectsResponse where
  success : Bool
  projects : List Project
  hasMore : Bool
  nextCursor : Option String
  deriving Repr, DecidableEq

/-- Pagination state of the load-more projects page, whose Load More button
is disabled while `isLoadingMore` is set. -/
structure ProjectsPaging where
  projects : List Project
  cursor : Option String
  hasMore : Bool
  isLoadingMore : Bool
  pendingLoads : List (Option String)
  deriving Repr, DecidableEq

/-- Clicking Load More on the projects page: rendered only under `hasMore`
and disabled while `isLoadingMore`; `handleLoadMore` raises the flag and
issues `loadProjects(cursor)`. -/
def clickLoadMoreProjects (st : ProjectsPaging) : ProjectsPaging :=
  if st.hasMore && !st.isLoadingMore then
    { st with
      isLoadingMore := true,
      pendingLoads := st.pendingLoads ++ [st.cursor] }
  else st

/-- Completion of `loadProjects(nextCursor)` on the load-more projects page;
`handleLoadMore` clears `isLoadingMore` once the await returns. -/
def resolveLoadProjects (st : ProjectsPaging) (nextCursor : Option String)
    (resp : ProjectsResponse) : ProjectsPaging :=
  let st1 := { st with
    pendingLoads := st.pendingLoads.erase nextCursor,
    isLoadingMore := false }
  if resp.success then
    { st1 with
      projects := match nextCursor with
        | some _ => st.projects ++ resp.projects
        | none => resp.projects,
      hasMore := resp.hasMore,
      cursor := resp.nextCursor }
  else st1

/-- Initial two-page task list used by the C3 counterexample. -/
def c3Start : TaskPaging :=
  ⟨[⟨"A", "a", "", "OPEN"⟩, ⟨"B", "b", "", "OPEN"⟩], some "B", true, []⟩

/-- Third-page response used by the C3 counterexample. -/
def c3Resp : TasksResponse :=
  ⟨true, [⟨"C", "c", "", "OPEN"⟩], false, none⟩

/-- C3 (counterexample): the claim requires a load-more call to be a no-op
while a page load is already in flight, but the task list button has no such
guard: a second click while the first request is pending issues a second
request (the state changes), and when both identical responses resolve the
page is appended twice, duplicating task C. -/
theorem C3_counterexample :
    clickLoadMore (clickLoadMore c3Start) ≠ clickLoadMore c3Start
    ∧ (resolveLoadTasks
        (resolveLoadTasks (clickLoadMore (clickLoadMore c3Start))
          (some "B") c3Resp)
        (some "B") c3Resp).tasks
      = [⟨"A", "a", "", "OPEN"⟩, ⟨"B", "b", "", "OPEN"⟩,
         ⟨"C", "c", "", "OPEN"⟩, ⟨"C", "c", "", "OPEN"⟩] := by
  constructor
  · decide
  · rfl

/-- C3 (amended): a load-more click is a no-op when `hasMore` is false (the
control is not rendered); on the projects list it is also a no-op while a
load is in flight (the control is disabled), but the task list has no
in-flight guard, so a duplicate concurrent click issues and applies a second
append (see the counterexample); on success a cursor-bearing load appends the
response items to the tail, preserving the existing elements and their order,
and advances `cursor` and `hasMore` from the response pagination fields. -/
theorem C3_amended :
    (∀ st : TaskPaging, st.hasMore = false → clickLoadMore st = st)
    ∧ (∀ st : ProjectsPaging, st.isLoadingMore = true →
        clickLoadMoreProjects st = st)
    ∧ (∀ (st : TaskPaging) (c : String) (resp : TasksResponse),
        resp.success = true →
        (resolveLoadTasks st (some c) resp).tasks = st.tasks ++ resp.tasks
        ∧ (resolveLoadTasks st (some c) resp).hasMore = resp.hasMore
        ∧ (resolveLoadTasks st (some c) resp).cursor = resp.nextCursor) := by
  refine ⟨?_, ?_, ?_⟩
  · intro st h
    simp [clickLoadMore, h]
  · intro st h
    simp [clickLoadMoreProjects, h]
  · intro st c resp h
    refine ⟨?_, ?_, ?_⟩ <;> simp [resolveLoadTasks, h]

/-- C3 witness: the amended statements at concrete states: an exhausted list
ignores the click, a loading projects page ignores the click, and a resolved
cursor load appends its page after the existing two tasks. -/
theorem C3_witness :
    clickLoadMore ⟨[⟨"A", "a", "", "OPEN"⟩], none, false, []⟩
      = ⟨[⟨"A", "a", "", "OPEN"⟩], none, false, []⟩
    ∧ clickLoadMoreProjects ⟨[], some "p", true, true, [some "p"]⟩
      = ⟨[], some "p", true, true, [some "p"]⟩
    ∧ (resolveLoadTasks c3Start "B" c3Resp).tasks
      = c3Start.tasks ++ c3Resp.tasks := by
  refine ⟨C3_amended.1 _ rfl, C3_amended.2.1 _ rfl,
    (C3_amended.2.2 c3Start "B" c3Resp rfl).1⟩

/-- Cursor-history state of the page-by-page projects list, which navigates
with Previous and Next buttons and keeps one cursor per visited page. -/
structure FilterPaging where
  projects : List Project
  currentPage : Nat
  cursorHistory : List (Option String)
  hasMore : Bool
  deriving Repr, DecidableEq

/-- JavaScript array index assignment with automatic extension
(`newHistory[currentPage] = nextCursor`). -/
def jsSetAt (l : List (Option String)) (i : Nat) (v : Option String) :
    List (Option String) :=
  if i < l.length then l.set i v
  else l ++ List.replicate (i - l.length) none ++ [v]

/-- Completion of `loadProjects` on the page-by-page projects list: it always
replaces the collection with the returned page, updates `hasMore`, and stores
the next cursor in the history slot of the current page when one is
returned. -/
def resolveLoadProjectsPaged (st : FilterPaging) (resp : ProjectsResponse) :
    FilterPaging :=
  if resp.success then
    { st with
      projects := resp.projects,
      hasMore := resp.hasMore,
      cursorHistory := match resp.nextCursor with
        | some c => jsSetAt st.cursorHistory st.currentPage (some c)
        | none => st.cursorHistory }
  else st

/-- `handleApplyFilters`: reset the pagination (page 1, history holding only
the null first-page cursor), clear the collection, then issue the first-page
load under the new filters; composed here with the resolution of that
load. -/
def handleApplyFilters (st : FilterPaging) (resp : ProjectsResponse) :
    FilterPaging :=
  resolveLoadProjectsPaged
    { st with currentPage := 1, cursorHistory := [none], projects := [] } resp

/-- C4: pagination reset law. A cursorless task load replaces the entire
collection with the returned first page and resets the pagination fields
from the response, whatever was loaded before; and on the projects list,
applying new filters yields exactly the first page returned under the new
query, with page counter reset - no residue from previously loaded pages in
either case. -/
theorem C4_pagination_reset :
    (∀ (st : TaskPaging) (resp : TasksResponse), resp.success = true →
      (resolveLoadTasks st none resp).tasks = resp.tasks
      ∧ (resolveLoadTasks st none resp).hasMore = resp.hasMore
      ∧ (resolveLoadTasks st none resp).cursor = resp.nextCursor)
    ∧ (∀ (st : FilterPaging) (resp : ProjectsResponse), resp.success = true →
      (handleApplyFilters st resp).projects = resp.projects
      ∧ (handleApplyFilters st resp).currentPage = 1
      ∧ (handleApplyFilters st resp).hasMore = resp.hasMore) := by
  constructor
  · intro st resp h
    refine ⟨?_, ?_, ?_⟩ <;> simp [resolveLoadTasks, h]
  · intro st resp h
    refine ⟨?_, ?_, ?_⟩ <;>
      simp [handleApplyFilters, resolveLoadProjectsPaged, h]

/-- C4 witness: the reset law at concrete states carrying residue from a
previous filter: the old pages vanish and only the fresh first page
remains. -/
theorem C4_witness :
    (resolveLoadTasks c3Start none c3Resp).tasks = c3Resp.tasks
    ∧ (handleApplyFilters
        ⟨[⟨"P1", "old", "ACTIVE"⟩], 3, [none, some "x", some "y"], true⟩
        ⟨true, [⟨"P2", "new", "ACTIVE"⟩], false, none⟩).projects
      = [⟨"P2", "new", "ACTIVE"⟩] := by
  refine ⟨(C4_pagination_reset.1 c3Start c3Resp rfl).1,
    (C4_pagination_reset.2 _ _ rfl).1⟩

/-- Shape of the comments endpoint response consumed by `loadComments`. -/
structure CommentsResponse where
  success : Bool
  comments : List Comment
  deriving Repr, DecidableEq

/-- State of the task detail sheet: the task it currently shows (`some` when
open with a task), the comment collection, the draft comment, the busy flags
and the in-flight `loadComments` requests (recorded by the task id each was
issued for). -/
structure SheetState where
  openTask : Option String
  comments : List Comment
  newComment : String
  isLoadingComments : Bool
  isSubmittingComment : Bool
  isUpdating : Bool
  pendingCommentLoads : List String
  deriving Repr, DecidableEq

/-- The sheet opening on a task (or switching to a new one): the effect runs
`loadComments`, which raises the loading flag and issues a request for that
task id. -/
def openSheet (st : SheetState) (taskId : String) : SheetState :=
  { st with
    openTask := some taskId,
    isLoadingComments := true,
    pendingCommentLoads := st.pendingCommentLoads ++ [taskId] }

/-- The sheet closing (or losing its task): the effect clears the comment
collection and the draft; pending requests are not cancelled. -/
def closeSheet (st : SheetState) : SheetState :=
  { st with openTask := none, comments := [], newComment := "" }

/-- Completion of a `loadComments` request issued for `taskId`: on success
the handler replaces the comment collection with the response, with no check
that the sheet still shows that task. -/
def resolveCommentsLoad (st : SheetState) (taskId : String)
    (resp : CommentsResponse) : SheetState :=
  let st1 := { st with
    pendingCommentLoads := st.pendingCommentLoads.erase taskId,
    isLoadingComments := false }
  if resp.success then { st1 with comments := resp.comments }
  else st1

/-- Comment delivered by the first (stale) load of the C5 counterexample. -/
def c5Old : Comment := ⟨"c1", "old message", "T1"⟩

/-- Comment delivered by the fresh load of the C5 counterexample. -/
def c5New : Comment := ⟨"c2", "new message", "T1"⟩

/-- C5 counterexample run: the sheet opens on task T1 (a load is issued),
is torn down while that load is pending, reopens on the same task (a second
load is issued), the fresh load resolves, then the stale first load
resolves. -/
def c5Run : SheetState :=
  resolveCommentsLoad
    (resolveCommentsLoad
      (openSheet (closeSheet (openSheet ⟨none, [], "", false, false, false, []⟩ "T1")) "T1")
      "T1" ⟨true, [c5New]⟩)
    "T1" ⟨true, [c5Old]⟩

/-- C5 (counterexample): the claim requires the stale load's result to be
dropped, leaving the reopened view's collection equal to its own fresh page;
instead the stale result is applied when it resolves, overwriting the fresh
page. -/
theorem C5_counterexample :
    c5Run.comments = [c5Old] ∧ c5Run.comments ≠ [c5New] := by
  exact ⟨rfl, by decide⟩

/-- C5 (amended): there is no stale-response guard: a successfully resolving
comments load replaces the collection unconditionally, whichever task the
sheet currently shows (the view identity is untouched by the resolution), so
the collection equals the page of whichever successful load resolved last,
and a newly mounted view with the same identifier is unaffected by a stale
result only when its own load resolves after the stale one. -/
theorem C5_amended (st : SheetState) (taskId : String)
    (resp : CommentsResponse) (h : resp.success = true) :
    (resolveCommentsLoad st taskId resp).comments = resp.comments
    ∧ (resolveCommentsLoad st taskId resp).openTask = st.openTask := by
  constructor <;> simp [resolveCommentsLoad, h]

/-- C5 witness: the amended statement at the counterexample run's last step:
the stale page lands in the collection while the sheet still shows T1. -/
theorem C5_witness :
    (resolveCommentsLoad
      (resolveCommentsLoad
        (openSheet (closeSheet (openSheet ⟨none, [], "", false, false, false, []⟩ "T1")) "T1")
        "T1" ⟨true, [c5New]⟩)
      "T1" ⟨true, [c5Old]⟩).comments = [c5Old] :=
  (C5_amended _ "T1" ⟨true, [c5Old]⟩ rfl).1

/-- Dialog-local state of the create-task dialog. -/
structure CreateTaskDialogState where
  isOpen : Bool
  title : String
  description : String
  assignee : String
  error : Option String
  deriving Repr, DecidableEq

/-- Shape of the create-task endpoint response. -/
structure CreateTaskResponse where
  success : Bool
  message : String
  task : Option Task
  deriving Repr, DecidableEq

/-- `handleSubmit` of the create-task dialog, paired with the page's task
collection it could reach through the `onTaskCreated` prop: the error is
cleared, an empty title aborts with a validation error, a successful response
resets the form and closes the dialog without invoking the prop (the
broadcast event inserts the task), and a failure response surfaces the server
message. No branch touches the task collection. -/
def handleSubmitCreateTask (dlg : CreateTaskDialogState) (tasks : List Task)
    (resp : Option CreateTaskResponse) :
    CreateTaskDialogState × List Task :=
  let dlg0 := { dlg with error := none }
  if dlg.title.trim.isEmpty then
    ({ dlg0 with error := some "Task title is required" }, tasks)
  else
    match resp with
    | some r =>
      if r.success && r.task.isSome then
        ({ dlg0 with
            title := "", description := "", assignee := "unassigned",
            isOpen := false }, tasks)
      else if !r.success then
        ({ dlg0 with
            error := some (if r.message.isEmpty then "Failed to create task"
              else r.message) }, tasks)
      else (dlg0, tasks)
    | none => (dlg0, tasks)

/-- `handleAddComment` of the task detail sheet after its POST resolves:
guarded on a task being shown and a non-blank draft; it only clears the
draft and the busy flag - the comment collection is left to the broadcast
event. -/
def handleAddComment (st : SheetState) : SheetState :=
  if st.openTask.isNone || st.newComment.trim.isEmpty then st
  else { st with newComment := "", isSubmittingComment := false }

/-- `handleStatusChange` (and identically `handleAssigneeChange`) of the task
detail sheet after its PATCH resolves: only the busy flag changes - the task
collection is left to the broadcast `task:updated` event. -/
def handleStatusChange (sheet : SheetState) (page : TaskPageState) :
    SheetState × TaskPageState :=
  if sheet.openTask.isNone then (sheet, page)
  else ({ sheet with isUpdating := false }, page)

/-- C6: local mutations are not applied optimistically: for every dialog or
sheet state and every response, the completion handler of a create-task
submission leaves the task collection unchanged, the completion handler of an
add-comment submission leaves the comment collection unchanged, and the
completion handler of a status/assignee PATCH leaves the page state (hence
the task collection) unchanged; the collections change only when the echoed
broadcast events are applied by the event handlers. -/
theorem C6_no_optimistic_apply :
    (∀ (dlg : CreateTaskDialogState) (tasks : List Task)
        (resp : Option CreateTaskResponse),
      (handleSubmitCreateTask dlg tasks resp).2 = tasks)
    ∧ (∀ st : SheetState, (handleAddComment st).comments = st.comments)
    ∧ (∀ (sheet : SheetState) (page : TaskPageState),
      (handleStatusChange sheet page).2 = page) := by
  refine ⟨?_, ?_, ?_⟩
  · intro dlg tasks resp
    unfold handleSubmitCreateTask
    split
    · rfl
    · cases resp with
      | none => rfl
      | some r =>
        simp only
        split
        · rfl
        · split <;> rfl
  · intro st
    unfold handleAddComment
    split <;> rfl
  · intro sheet page
    unfold handleStatusChange
    split <;> rfl

/-- Broadcast `comment:updated` handler of the task detail sheet:
replace-in-place by id. -/
def onCommentUpdated (comments : List Comment) (u : Comment) : List Comment :=
  comments.map (fun c => if c._id == u._id then u else c)

/-- Broadcast `comment:deleted` handler of the task detail sheet:
remove by id. -/
def onCommentDeleted (comments : List Comment) (commentId : String) :
    List Comment :=
  comments.filter (fun c => !(c._id == commentId))

theorem countTaskId_filter_self (ts : List Task) (i : String) :
    countTaskId (ts.filter (fun t => !(t._id == i))) i = 0 := by
  induction ts with
  | nil => rfl
  | cons t ts ih =>
    by_cases h : t._id = i
    · simp [List.filter_cons, h, ih]
    · simp [List.filter_cons, h, countTaskId_cons, ih]

theorem countTaskId_filter_other (ts : List Task) (i j : String)
    (hji : j ≠ i) :
    countTaskId (ts.filter (fun t => !(t._id == i))) j = countTaskId ts j := by
  induction ts with
  | nil => rfl
  | cons t ts ih =>
    by_cases h : t._id = i
    · have hij : i ≠ j := fun e => hji e.symm
      simp [List.filter_cons, h, countTaskId_cons, hij, ih]
    · simp [List.filter_cons, h, countTaskId_cons, ih]

theorem taskFilter_eq_self_of_count_zero (ts : List Task) (i : String)
    (h : countTaskId ts i = 0) :
    ts.filter (fun t => !(t._id == i)) = ts := by
  induction ts with
  | nil => rfl
  | cons t ts ih =>
    rw [countTaskId_cons] at h
    by_cases hb : t._id = i
    · simp [hb] at h
    · have h2 : countTaskId ts i = 0 := by simpa [hb] using h
      simp [List.filter_cons, hb, ih h2]

theorem countCommentId_cons (c : Comment) (cs : List Comment) (i : String) :
    countCommentId (c :: cs) i
      = (if c._id == i then 1 else 0) + countCommentId cs i :=
  rfl

theorem countCommentId_filter_self (cs : List Comment) (i : String) :
    countCommentId (cs.filter (fun c => !(c._id == i))) i = 0 := by
  induction cs with
  | nil => rfl
  | cons c cs ih =>
    by_cases h : c._id = i
    · simp [List.filter_cons, h, ih]
    · simp [List.filter_cons, h, countCommentId_cons, ih]

theorem commentFilter_eq_self_of_count_zero (cs : List Comment) (i : String)
    (h : countCommentId cs i = 0) :
    cs.filter (fun c => !(c._id == i)) = cs := by
  induction cs with
  | nil => rfl
  | cons c cs ih =>
    rw [countCommentId_cons] at h
    by_cases hb : c._id = i
    · simp [hb] at h
    · have h2 : countCommentId cs i = 0 := by simpa [hb] using h
      simp [List.filter_cons, hb, ih h2]

/-- C7: `applyRemoteUpdate` replaces in place, unconditionally and without
suppression: for both the task and the comment collections the handler
preserves the length, leaves every position holding an entity with a
different id unchanged, puts the new snapshot at exactly the position the
old one occupied, and refreshes the selected task of the detail view when it
is the one updated (leaving any other selection alone). -/
theorem C7_replace_in_place :
    (∀ (st : TaskPageState) (u : Task),
      (onTaskUpdatedEvent st u).tasks.length = st.tasks.length)
    ∧ (∀ (st : TaskPageState) (u : Task) (i : Nat) (t : Task),
      st.tasks[i]? = some t →
      (t._id = u._id → (onTaskUpdatedEvent st u).tasks[i]? = some u)
      ∧ (t._id ≠ u._id → (onTaskUpdatedEvent st u).tasks[i]? = some t))
    ∧ (∀ (st : TaskPageState) (u c : Task),
      st.selectedTask = some c →
      (c._id = u._id → (onTaskUpdatedEvent st u).selectedTask = some u)
      ∧ (c._id ≠ u._id → (onTaskUpdatedEvent st u).selectedTask = some c))
    ∧ (∀ (comments : List Comment) (u : Comment),
      (onCommentUpdated comments u).length = comments.length)
    ∧ (∀ (comments : List Comment) (u : Comment) (i : Nat) (c : Comment),
      comments[i]? = some c →
      (c._id = u._id → (onCommentUpdated comments u)[i]? = some u)
      ∧ (c._id ≠ u._id → (onCommentUpdated comments u)[i]? = some c)) := by
  refine ⟨?_, ?_, ?_, ?_, ?_⟩
  · intro st u
    simp [onTaskUpdatedEvent]
  · intro st u i t h
    constructor
    · intro hid
      simp [onTaskUpdatedEvent, List.getElem?_map, h, hid]
    · intro hid
      simp [onTaskUpdatedEvent, List.getElem?_map, h, hid]
  · intro st u c h
    constructor
    · intro hid
      simp [onTaskUpdatedEvent, h, hid]
    · intro hid
      simp [onTaskUpdatedEvent, h, hid]
  · intro comments u
    simp [onCommentUpdated]
  · intro comments u i c h
    constructor
    · intro hid
      simp [onCommentUpdated, List.getElem?_map, h, hid]
    · intro hid
      simp [onCommentUpdated, List.getElem?_map, h, hid]

/-- Concrete page used by the C7 witness: tasks A and B, A selected. -/
def c7St : TaskPageState :=
  ⟨[⟨"A", "a", "", "OPEN"⟩, ⟨"B", "b", "", "OPEN"⟩], [],
    some ⟨"A", "a", "", "OPEN"⟩, true⟩

/-- Updated snapshot of task A used by the C7 witness. -/
def c7U : Task := ⟨"A", "a2", "", "CLOSED"⟩

/-- C7 witness: the replace-in-place theorem at a concrete two-task page
with the first task selected and updated: length preserved, position 0
refreshed, position 1 untouched, selection refreshed; and at a concrete
comment list. -/
theorem C7_witness :
    (onTaskUpdatedEvent c7St c7U).tasks.length = 2
    ∧ (onTaskUpdatedEvent c7St c7U).tasks[0]? = some c7U
    ∧ (onTaskUpdatedEvent c7St c7U).tasks[1]? = some ⟨"B", "b", "", "OPEN"⟩
    ∧ (onTaskUpdatedEvent c7St c7U).selectedTask = some c7U
    ∧ (onCommentUpdated [⟨"c1", "x", "T1"⟩] ⟨"c1", "y", "T1"⟩)[0]?
      = some ⟨"c1", "y", "T1"⟩ := by
  refine ⟨(C7_replace_in_place.1 c7St c7U).trans rfl,
    (C7_replace_in_place.2.1 c7St c7U 0 ⟨"A", "a", "", "OPEN"⟩ rfl).1 rfl,
    (C7_replace_in_place.2.1 c7St c7U 1 ⟨"B", "b", "", "OPEN"⟩ rfl).2
      (by decide),
    (C7_replace_in_place.2.2.1 c7St c7U ⟨"A", "a", "", "OPEN"⟩ rfl).1 rfl,
    (C7_replace_in_place.2.2.2.2 [⟨"c1", "x", "T1"⟩] ⟨"c1", "y", "T1"⟩ 0
      ⟨"c1", "x", "T1"⟩ rfl).1 rfl⟩

/-- C8: `applyRemoteDelete` removes the entity with the given id
unconditionally: afterwards the id no longer occurs, every entity with a
different id keeps its multiplicity, the survivors appear in their original
order (the result is a sublist), deleting an absent id leaves the collection
unchanged, and when the deleted task is the one open in the detail view the
sheet is closed and the selection cleared; likewise for the comment
collection. -/
theorem C8_remote_delete :
    (∀ (st : TaskPageState) (taskId : String),
      countTaskId (onTaskDeletedEvent st taskId).tasks taskId = 0)
    ∧ (∀ (st : TaskPageState) (taskId j : String), j ≠ taskId →
      countTaskId (onTaskDeletedEvent st taskId).tasks j
        = countTaskId st.tasks j)
    ∧ (∀ (st : TaskPageState) (taskId : String),
      List.Sublist (onTaskDeletedEvent st taskId).tasks st.tasks)
    ∧ (∀ (st : TaskPageState) (taskId : String),
      countTaskId st.tasks taskId = 0 →
      (onTaskDeletedEvent st taskId).tasks = st.tasks)
    ∧ (∀ (st : TaskPageState) (taskId : String) (c : Task),
      st.selectedTask = some c → c._id = taskId →
      (onTaskDeletedEvent st taskId).isSheetOpen = false
      ∧ (onTaskDeletedEvent st taskId).selectedTask = none)
    ∧ (∀ (comments : List Comment) (commentId : String),
      countCommentId (onCommentDeleted comments commentId) commentId = 0)
    ∧ (∀ (comments : List Comment) (commentId : String),
      countCommentId comments commentId = 0 →
      onCommentDeleted comments commentId = comments) := by
  have htasks : ∀ (st : TaskPageState) (taskId : String),
      (onTaskDeletedEvent st taskId).tasks
        = st.tasks.filter (fun t => !(t._id == taskId)) := by
    intro st taskId
    unfold onTaskDeletedEvent
    split <;> rfl
  refine ⟨?_, ?_, ?_, ?_, ?_, ?_, ?_⟩
  · intro st taskId
    rw [htasks]
    exact countTaskId_filter_self st.tasks taskId
  · intro st taskId j hj
    rw [htasks]
    exact countTaskId_filter_other st.tasks taskId j hj
  · intro st taskId
    rw [htasks]
    exact List.filter_sublist st.tasks
  · intro st taskId h
    rw [htasks]
    exact taskFilter_eq_self_of_count_zero st.tasks taskId h
  · intro st taskId c hsel hid
    constructor <;>
      · unfold onTaskDeletedEvent
        rw [hsel]
        simp [hid]
  · intro comments commentId
    exact countCommentId_filter_self comments commentId
  · intro comments commentId h
    exact commentFilter_eq_self_of_count_zero comments commentId h

/-- C8 witness: the delete theorem at a concrete page: deleting task A with
A open in the sheet removes exactly A, keeps B, closes the sheet and clears
the selection; deleting an id absent from a comment list leaves it
unchanged. -/
theorem C8_witness :
    countTaskId
      (onTaskDeletedEvent
        ⟨[⟨"A", "a", "", "OPEN"⟩, ⟨"B", "b", "", "OPEN"⟩], [],
          some ⟨"A", "a", "", "OPEN"⟩, true⟩ "A").tasks "A" = 0
    ∧ countTaskId
      (onTaskDeletedEvent
        ⟨[⟨"A", "a", "", "OPEN"⟩, ⟨"B", "b", "", "OPEN"⟩], [],
          some ⟨"A", "a", "", "OPEN"⟩, true⟩ "A").tasks "B"
      = countTaskId [⟨"A", "a", "", "OPEN"⟩, ⟨"B", "b", "", "OPEN"⟩] "B"
    ∧ (onTaskDeletedEvent
        ⟨[⟨"A", "a", "", "OPEN"⟩, ⟨"B", "b", "", "OPEN"⟩], [],
          some ⟨"A", "a", "", "OPEN"⟩, true⟩ "A").isSheetOpen = false
    ∧ onCommentDeleted [⟨"c1", "x", "T1"⟩] "zz" = [⟨"c1", "x", "T1"⟩] := by
  refine ⟨C8_remote_delete.1 _ "A",
    C8_remote_delete.2.1 _ "A" "B" (by decide),
    (C8_remote_delete.2.2.2.2.1 _ "A" ⟨"A", "a", "", "OPEN"⟩ rfl rfl).1,
    C8_remote_delete.2.2.2.2.2.2 _ "zz" (by decide)⟩

/-- An HTTP response as seen by the fetch wrapper: status code, ok flag
(status in the 2xx range) and the JSON body reduced to the fields the
wrapper reads - the error message and the success payload. -/
structure HttpResponse where
  status : Nat
  ok : Bool
  message : Option String
  payload : String
  deriving Repr, DecidableEq

/-- Observable outcome of one `fetchData` call: the value returned to the
caller (`none` is the null failure), the side effects performed, whether the
body was parsed and the error recorded. -/
structure FetchOutcome where
  result : Option String
  loggedOut : Bool
  tokenRemoved : Bool
  redirectedToLogin : Bool
  parsedBody : Bool
  errorMsg : Option String
  deriving Repr, DecidableEq

/-- `useFetch.fetchData` applied to the single response of the single
request a call issues (the wrapper has no retry loop). On a 401 it logs the
session out, removes the stored access token, redirects to the login page,
records the session-expired error and returns null before the body is ever
parsed; otherwise the body is parsed, a non-ok status surfaces the server
message (or the generic one) and returns null, and an ok status returns the
payload. -/
def fetchData (resp : HttpResponse) : FetchOutcome :=
  if resp.status == 401 then
    { result := none, loggedOut := true, tokenRemoved := true,
      redirectedToLogin := true, parsedBody := false,
      errorMsg := some "Session expired. Please login again." }
  else if !resp.ok then
    { result := none, loggedOut := false, tokenRemoved := false,
      redirectedToLogin := false, parsedBody := true,
      errorMsg := some (resp.message.getD "An error occurred") }
  else
    { result := some resp.payload, loggedOut := false, tokenRemoved := false,
      redirectedToLogin := false, parsedBody := true, errorMsg := none }

/-- C9: for every response with status 401, `fetchData` clears the stored
credential, drops the session authentication state, redirects to the login
page and returns null to the caller, without parsing the body as a success
result; the wrapper never retries (it consumes exactly one response per
call by construction). -/
theorem C9_fetch_401 (resp : HttpResponse) (h : resp.status = 401) :
    (fetchData resp).result = none
    ∧ (fetchData resp).loggedOut = true
    ∧ (fetchData resp).tokenRemoved = true
    ∧ (fetchData resp).redirectedToLogin = true
    ∧ (fetchData resp).parsedBody = false := by
  refine ⟨?_, ?_, ?_, ?_, ?_⟩ <;> simp [fetchData, h]

/-- C9 witness: the 401 theorem at a concrete expired-session response. -/
theorem C9_witness :
    (fetchData ⟨401, false, some "Unauthorized", ""⟩).result = none
    ∧ (fetchData ⟨401, false, some "Unauthorized", ""⟩).loggedOut = true
    ∧ (fetchData ⟨401, false, some "Unauthorized", ""⟩).tokenRemoved = true
    ∧ (fetchData ⟨401, false, some "Unauthorized", ""⟩).redirectedToLogin
      = true
    ∧ (fetchData ⟨401, false, some "Unauthorized", ""⟩).parsedBody = false :=
  C9_fetch_401 ⟨401, false, some "Unauthorized", ""⟩ rfl

/-- One socket.io client instance created by a call to `io`, with its life
cycle flags. -/
structure SocketInstance where
  instId : Nat
  connected : Bool
  disconnected : Bool
  deriving Repr, DecidableEq

/-- State of the socket module: the module-level `socket` variable (the id of
the instance it points to, or none for null) together with every instance
created so far, in creation order. -/
structure SocketWorld where
  socketVar : Option Nat
  instances : List SocketInstance
  deriving Repr, DecidableEq

/-- The `socket?.connected` guard: whether the module variable points at an
instance that has finished connecting. -/
def currentConnected (w : SocketWorld) : Bool :=
  match w.socketVar with
  | some i =>
    match w.instances.find? (fun s => s.instId == i) with
    | some s => s.connected
    | none => false
  | none => false

/-- `connectSocket`: when the held socket is connected, return it; otherwise
call `io`, creating a fresh not-yet-connected instance and overwriting the
module variable with it. The replaced instance, if any, is not
disconnected. -/
def connectSocket (w : SocketWorld) : SocketWorld :=
  if currentConnected w then w
  else
    { w with
      socketVar := some w.instances.length,
      instances := w.instances ++ [⟨w.instances.length, false, false⟩] }

/-- The transport reporting that instance `i` finished connecting. -/
def socketConnects (w : SocketWorld) (i : Nat) : SocketWorld :=
  { w with
    instances := w.instances.map (fun s =>
      if s.instId == i then { s with connected := true } else s) }

/-- `disconnectSocket`: disconnect the instance held by the module variable,
if any, and null the variable; a no-op when the variable is already null. -/
def disconnectSocket (w : SocketWorld) : SocketWorld :=
  match w.socketVar with
  | some i =>
    { w with
      socketVar := none,
      instances := w.instances.map (fun s =>
        if s.instId == i then { s with connected := false, disconnected := true }
        else s) }
  | none => w

/-- The instances created and never disconnected. -/
def liveInstances (w : SocketWorld) : List SocketInstance :=
  w.instances.filter (fun s => !s.disconnected)

/-- At most one undisconnected instance exists, and it is the one the module
variable holds. -/
def singleLive (w : SocketWorld) : Prop :=
  (liveInstances w).length ≤ 1
  ∧ ∀ s ∈ w.instances, s.disconnected = false → w.socketVar = some s.instId

/-- C10 (counterexample): the claim asserts at most one live socket instance
per session for every sequence of `connectSocket` calls, but the reuse
guard tests `connected`, not mere existence: a second call made while the
first instance is still connecting creates a second instance and abandons
the first without disconnecting it, so two live instances exist. -/
theorem C10_counterexample :
    (liveInstances (connectSocket (connectSocket ⟨none, []⟩))).length = 2
    ∧ connectSocket (connectSocket ⟨none, []⟩) ≠ connectSocket ⟨none, []⟩ := by
  exact ⟨rfl, by decide⟩

theorem filter_live_nil (l : List SocketInstance)
    (h : ∀ s ∈ l, s.disconnected = true) :
    l.filter (fun s => !s.disconnected) = [] := by
  induction l with
  | nil => rfl
  | cons s l ih =>
    have hs := h s (List.mem_cons_self s l)
    simp [List.filter_cons, hs,
      ih (fun x hx => h x (List.mem_cons_of_mem s hx))]

theorem connects_preserves_live_length (l : List SocketInstance) (i : Nat) :
    ((l.map (fun s =>
        if s.instId == i then { s with connected := true } else s)).filter
      (fun s => !s.disconnected)).length
      = (l.filter (fun s => !s.disconnected)).length := by
  induction l with
  | nil => rfl
  | cons s l ih =>
    rw [List.map_cons, List.filter_cons, List.filter_cons]
    by_cases hb : (s.instId == i) = true
    · rw [if_pos hb]
      cases hd : s.disconnected with
      | false =>
        rw [if_pos (show (!false) = true from rfl),
          if_pos (show (!false) = true from rfl),
          List.length_cons, List.length_cons, ih]
      | true =>
        rw [if_neg (show ¬((!true) = true) by decide),
          if_neg (show ¬((!true) = true) by decide)]
        exact ih
    · rw [if_neg hb]
      cases hd : s.disconnected with
      | false =>
        rw [if_pos (show (!false) = true from rfl),
          if_pos (show (!false) = true from rfl),
          List.length_cons, List.length_cons, ih]
      | true =>
        rw [if_neg (show ¬((!true) = true) by decide),
          if_neg (show ¬((!true) = true) by decide)]
        exact ih

theorem singleLive_extend (w : SocketWorld)
    (hall : ∀ s ∈ w.instances, s.disconnected = true) :
    singleLive
      { w with
        socketVar := some w.instances.length,
        instances := w.instances ++ [⟨w.instances.length, false, false⟩] } := by
  constructor
  · simp [liveInstances, List.filter_append,
      filter_live_nil w.instances hall, List.filter_cons]
  · intro s hsmem hdf
    simp only [List.mem_append, List.mem_singleton] at hsmem
    cases hsmem with
    | inl h => exact absurd (hall s h) (by simp [hdf])
    | inr h => subst h; rfl

/-- C10 (amended): `connectSocket` reuses the held socket only when it is
already connected: in that case the call returns the very same instance and
state. Under call sequences in which every `connectSocket` call finds the
module variable either null or pointing at a connected instance, the module
maintains at most one undisconnected instance, held by the module variable
and shared by all views: that invariant holds initially and is preserved by
`connectSocket` (under the proviso), by `disconnectSocket` and by a
connection completing. A call made while the held socket exists but has not
yet connected, however, creates a second instance (see the
counterexample). -/
theorem C10_amended :
    (∀ w : SocketWorld, currentConnected w = true → connectSocket w = w)
    ∧ (∀ w : SocketWorld, singleLive w →
        (w.socketVar = none ∨ currentConnected w = true) →
        singleLive (connectSocket w))
    ∧ (∀ w : SocketWorld, singleLive w → singleLive (disconnectSocket w))
    ∧ (∀ (w : SocketWorld) (i : Nat), singleLive w →
        singleLive (socketConnects w i))
    ∧ singleLive ⟨none, []⟩ := by
  refine ⟨?_, ?_, ?_, ?_, ?_⟩
  · intro w h
    simp [connectSocket, h]
  · intro w hs hcase
    cases hcase with
    | inr hconn =>
      have he : connectSocket w = w := by simp [connectSocket, hconn]
      rw [he]
      exact hs
    | inl hnone =>
      have hall : ∀ s ∈ w.instances, s.disconnected = true := by
        intro s hsmem
        by_cases hd : s.disconnected
        · exact hd
        · have hdf : s.disconnected = false := by simpa using hd
          have h2 := hs.2 s hsmem hdf
          rw [hnone] at h2
          exact Option.noConfusion h2
      have hcc : currentConnected w = false := by
        simp [currentConnected, hnone]
      have he : connectSocket w
          = { w with
              socketVar := some w.instances.length,
              instances :=
                w.instances ++ [⟨w.instances.length, false, false⟩] } := by
        simp [connectSocket, hcc]
      rw [he]
      exact singleLive_extend w hall
  · intro w hs
    unfold disconnectSocket
    cases hv : w.socketVar with
    | none => exact hs
    | some i =>
      have hall2 : ∀ s' ∈ w.instances.map (fun s =>
          if s.instId == i then
            { s with connected := false, disconnected := true }
          else s), s'.disconnected = true := by
        intro s' hs'
        rcases List.mem_map.mp hs' with ⟨s, hsmem, rfl⟩
        by_cases hb : s.instId == i
        · simp [hb]
        · rw [if_neg hb]
          by_cases hd : s.disconnected
          · exact hd
          · have hdf : s.disconnected = false := by simpa using hd
            have h2 := hs.2 s hsmem hdf
            rw [hv] at h2
            have hii : i = s.instId := Option.some.inj h2
            exact absurd (by rw [← hii]; exact beq_self_eq_true i) hb
      constructor
      · simp only [liveInstances]
        rw [filter_live_nil _ hall2]
        simp
      · intro s hsmem hdf
        exact absurd (hall2 s hsmem) (by simp [hdf])
  · intro w i hs
    constructor
    · simp only [liveInstances, socketConnects]
      rw [connects_preserves_live_length]
      exact hs.1
    · intro s' hs' hdf
      simp only [socketConnects, List.mem_map] at hs'
      rcases hs' with ⟨s, hsmem, rfl⟩
      have hinst : (if s.instId == i then { s with connected := true }
          else s).instId = s.instId := by
        by_cases hb : s.instId == i <;> simp [hb]
      have hdisc : (if s.instId == i then { s with connected := true }
          else s).disconnected = s.disconnected := by
        by_cases hb : s.instId == i <;> simp [hb]
      rw [hdisc] at hdf
      rw [hinst]
      exact hs.2 s hsmem hdf
  · constructor
    · simp [liveInstances]
    · intro s hsmem
      exact absurd hsmem (List.not_mem_nil s)

/-- C10 witness: the amended statements at concrete worlds: a call finding a
connected socket returns the same state; a call on the empty world, a
disconnect of the held pending socket, and a connection completing each
preserve the single-live invariant. -/
theorem C10_witness :
    connectSocket ⟨some 0, [⟨0, true, false⟩]⟩ = ⟨some 0, [⟨0, true, false⟩]⟩
    ∧ singleLive (connectSocket ⟨none, []⟩)
    ∧ singleLive (disconnectSocket ⟨some 0, [⟨0, false, false⟩]⟩)
    ∧ singleLive (socketConnects ⟨some 0, [⟨0, false, false⟩]⟩ 0) := by
  have hsl : singleLive (⟨some 0, [⟨0, false, false⟩]⟩ : SocketWorld) := by
    constructor
    · decide
    · intro s hsmem hdf
      rw [List.mem_singleton] at hsmem
      subst hsmem
      rfl
  exact ⟨C10_amended.1 _ rfl,
    C10_amended.2.1 _ C10_amended.2.2.2.2 (Or.inl rfl),
    C10_amended.2.2.1 _ hsl,
    C10_amended.2.2.2.1 _ 0 hsl⟩

end RTM
